import Mathlib

/-!
Shallow embedding of `kitchenconv.cpp`, a command-line cooking-unit
converter, together with proofs about the claims of its specification.

Modelling conventions:
* C++ `double` values are modelled as exact rationals (`ℚ`); the static
  tables hold short decimal literals, written as exact fractions.
* C++ `std::size_t` is modelled as `Nat` with arithmetic reduced modulo
  `2 ^ 64` where the source can overflow or wrap (a 64-bit platform is
  assumed, matching the build instructions in the source header).
* `std::string` character access `s[i]` follows the C++11 contract:
  `i < s.size()` yields the character, `i = s.size()` yields the null
  terminator, and `i > s.size()` is undefined behaviour, modelled as
  `Option.none` propagating through the computation.
* `std::map` construction from an initializer list keeps the first
  occurrence of a duplicated key, and lookup finds that occurrence; an
  association list with `List.lookup` (first match wins) has exactly
  these semantics.
* Program output is modelled as lists of abstract output lines, one
  constructor per distinct message the program can emit; the contents of
  the sorted "known units / known densities" suggestion lines are
  abstracted to a marker constructor (their order on ties is not pinned
  down by `std::sort`).
-/

/-- `enum class unit_type` from the source. -/
inductive unit_type where
  | none
  | temperature
  | volume
  | weight
  deriving DecidableEq, Repr

/-- `unit_type_name` from the source. -/
def unit_type_name (t : unit_type) : String :=
  match t with
  | unit_type.temperature => "temperature"
  | unit_type.volume => "volume"
  | unit_type.weight => "weight"
  | unit_type.none => "unknown"

/-- `struct unit` from the source: conversion factor to SI and unit kind. -/
structure unit where
  to_si : ℚ
  type : unit_type
  deriving DecidableEq, Repr

/-- `SIZE_MAX`, the value of `std::size_t(-1)` on a 64-bit platform: the
sentinel initial value of `best_d` in `string_distance`. -/
def SIZE_MAX : Nat := 2 ^ 64 - 1

/-- C++11 `std::string` character access `s[i]`: in range yields the
character, `i = s.size()` yields the null terminator `'\0'`, and
`i > s.size()` is undefined behaviour (`none`). -/
def cppCharAt (s : List Char) (i : Nat) : Option Char :=
  if h : i < s.length then some (s.get ⟨i, h⟩)
  else if i = s.length then some (Char.ofNat 0)
  else none

/-- The inner loop of `string_distance`: `td` after iterations
`i = 0, …, m-1` of `for (i = 0; i < n; ++i) if (t[i+k] != u[i]) ++td;`.
`none` when some access is undefined behaviour. -/
def tdLoop (t u : List Char) (k : Nat) : Nat → Option Nat
  | 0 => some 0
  | m + 1 => do
      let prev ← tdLoop t u k m
      let ct ← cppCharAt t (m + k)
      let cu ← cppCharAt u m
      pure (if ct ≠ cu then prev + 1 else prev)

/-- The outer loop of `string_distance`: `best_d` after iterations
`k = 0, …, K-1`, starting from the sentinel `std::size_t(-1)`. -/
def bestLoop (t u : List Char) : Nat → Option Nat
  | 0 => some SIZE_MAX
  | k + 1 => do
      let best ← bestLoop t u k
      let td ← tdLoop t u k t.length
      pure (if td < best then td else best)

/-- Body of `string_distance` for `t.size() ≤ u.size()` (after the
recursive swap): `d = u.size() - t.size()`, run the offset loop, return
`d + best_d` as `std::size_t` arithmetic (mod `2^64`). -/
def string_distance_core (t u : List Char) : Option Nat := do
  let best ← bestLoop t u (u.length - t.length)
  pure ((u.length - t.length + best) % 2 ^ 64)

/-- `string_distance` from the source, with the initial swap putting the
shorter string first. -/
def string_distance (t u : List Char) : Option Nat :=
  if t.length > u.length then string_distance_core u t
  else string_distance_core t u

/-- `density_table` from the source, in source order; note the duplicated
`"baking-powder"` key (`std::map` keeps the first occurrence). -/
def density_table : List (String × ℚ) :=
  [("flour",         5283 / 10000),
   ("butter",        9586 / 10000),
   ("sugar",         8453 / 10000),
   ("salt",          11548 / 10000),
   ("baking-powder", 11548 / 10000),
   ("baking-soda",   9337 / 10000),
   ("baking-powder", 7208 / 10000),
   ("almond-flour",  5679 / 10000),
   ("tomato-paste",  11075 / 10000),
   ("tomato-puree",  11075 / 10000),
   ("rice",          8453 / 10000),
   ("tofu",          10480 / 10000),
   ("parmesan",      4227 / 10000),
   ("oil",           9215 / 10000),
   ("water",         1),
   ("parsley",       10566 / 100000),
   ("basil",         10566 / 100000),
   ("cilantro",      10566 / 100000),
   ("dill",          10566 / 100000),
   ("herbs",         10566 / 100000)]

/-- `unit_table` from the source. -/
def unit_table : List (String × unit) :=
  [("kg",   ⟨1,              unit_type.weight⟩),
   ("g",    ⟨1 / 1000,       unit_type.weight⟩),
   ("mg",   ⟨1 / 1000000,    unit_type.weight⟩),
   ("lb",   ⟨4536 / 10000,   unit_type.weight⟩),
   ("oz",   ⟨2835 / 100000,  unit_type.weight⟩),
   ("l",    ⟨1,              unit_type.volume⟩),
   ("dl",   ⟨1 / 10,         unit_type.volume⟩),
   ("cl",   ⟨1 / 100,        unit_type.volume⟩),
   ("ml",   ⟨1 / 1000,       unit_type.volume⟩),
   ("gal",  ⟨3785 / 1000,    unit_type.volume⟩),
   ("cup",  ⟨2366 / 10000,   unit_type.volume⟩),
   ("floz", ⟨2957 / 100000,  unit_type.volume⟩),
   ("tbs",  ⟨1479 / 100000,  unit_type.volume⟩),
   ("ts",   ⟨493 / 100000,   unit_type.volume⟩),
   ("c",    ⟨1,              unit_type.temperature⟩),
   ("f",    ⟨0,              unit_type.temperature⟩)]

example : List.lookup "tbs" unit_table = some ⟨1479 / 100000, unit_type.volume⟩ := by
  simp [unit_table, List.lookup]
example : List.lookup "baking-powder" density_table = some (11548 / 10000) := by
  simp [density_table, List.lookup]
example : string_distance "ab".toList "xaby".toList = some 4 := by decide
example : string_distance "kg".toList "kg".toList = some (2 ^ 64 - 1) := by decide
example : string_distance "a".toList "abcd".toList = none := by decide

/-- `std::tolower` in the C locale, applied to a byte: ASCII uppercase
letters map to lowercase, everything else is unchanged. -/
def cppToLower (c : Char) : Char :=
  if 'A' ≤ c ∧ c ≤ 'Z' then Char.ofNat (c.toNat + 32) else c

/-- `tolower(std::string)` from the source. -/
def strToLower (s : String) : String :=
  String.mk (s.toList.map cppToLower)

/-- Whitespace in the C locale, skipped by stream extraction (`>>`). -/
def isCppSpace (c : Char) : Bool :=
  c = ' ' ∨ c = '\t' ∨ c = '\n' ∨ c = '\x0b' ∨ c = '\x0c' ∨ c = '\r'

def isDigitChar (c : Char) : Bool := '0' ≤ c ∧ c ≤ '9'

def digitsToNat (ds : List Char) : Nat :=
  ds.foldl (fun a c => 10 * a + (c.toNat - '0'.toNat)) 0

/-- `from_string<std::size_t>`: `istringstream >> v` on a 64-bit unsigned
integer followed by an `eof()` check.  Stream extraction skips leading
whitespace, accepts an optional sign (a minus sign wraps the value modulo
`2^64`, per `strtoull` semantics), requires at least one digit, fails on a
magnitude above `2^64 - 1` (`ERANGE` sets `failbit`), and the `eof()`
check rejects any trailing characters. -/
def from_string_size_t (s : String) : Option Nat :=
  let cs := s.toList.dropWhile isCppSpace
  let signed : Bool × List Char :=
    match cs with
    | '-' :: r => (true, r)
    | '+' :: r => (false, r)
    | _ => (false, cs)
  let ds := signed.2.takeWhile isDigitChar
  let rest := signed.2.dropWhile isDigitChar
  if ds = [] then none
  else if rest ≠ [] then none
  else
    let m := digitsToNat ds
    if m > 2 ^ 64 - 1 then none
    else some (if signed.1 then (2 ^ 64 - m) % 2 ^ 64 else m)

/-- `10^e` over `ℚ` for a signed exponent, written with `Nat` powers. -/
def applyExp (x : ℚ) (e : Int) : ℚ :=
  if 0 ≤ e then x * (10 : ℚ) ^ e.toNat else x / (10 : ℚ) ^ (-e).toNat

/-- `from_string<double>`: `istringstream >> v` on a `double` followed by
an `eof()` check.  Skips leading whitespace, accepts an optional sign, a
decimal mantissa with at least one digit and an optional fractional part,
and an optional exponent (`e`/`E`, optional sign, at least one digit);
anything left over makes the parse fail.  The value is modelled exactly
over `ℚ` (no binary rounding); C++11 hexadecimal float syntax and the
overflow-to-`failbit` range check are not modelled, as no conversion in
the tables or claims exercises them. -/
def from_string_double (s : String) : Option ℚ :=
  let cs := s.toList.dropWhile isCppSpace
  let signed : Bool × List Char :=
    match cs with
    | '-' :: r => (true, r)
    | '+' :: r => (false, r)
    | _ => (false, cs)
  let ip := signed.2.takeWhile isDigitChar
  let afterInt := signed.2.dropWhile isDigitChar
  let fracPart : List Char × List Char :=
    match afterInt with
    | '.' :: r => (r.takeWhile isDigitChar, r.dropWhile isDigitChar)
    | _ => ([], afterInt)
  let fp := fracPart.1
  let afterFrac := fracPart.2
  if ip = [] ∧ fp = [] then none
  else
    let mant : ℚ := (digitsToNat ip : ℚ) + (digitsToNat fp : ℚ) / (10 : ℚ) ^ fp.length
    let mant : ℚ := if signed.1 then -mant else mant
    match afterFrac with
    | [] => some mant
    | e :: r =>
      if e = 'e' ∨ e = 'E' then
        let esigned : Bool × List Char :=
          match r with
          | '-' :: r2 => (true, r2)
          | '+' :: r2 => (false, r2)
          | _ => (false, r)
        let ed := esigned.2.takeWhile isDigitChar
        let erest := esigned.2.dropWhile isDigitChar
        if ed = [] then none
        else if erest ≠ [] then none
        else
          let ev : Int := if esigned.1 then -(digitsToNat ed : Int) else (digitsToNat ed : Int)
          some (applyExp mant ev)
      else none

/-- Splits a character list at the first `'/'`
(`quantity.find_first_of("/")` with the two `substr` calls). -/
def splitSlash : List Char → Option (List Char × List Char)
  | [] => none
  | c :: rest =>
    if c = '/' then some ([], rest)
    else (splitSlash rest).map (fun p => (c :: p.1, p.2))

/-- The quantity-parsing block of `main` (lines 205–226): a token with a
`'/'` is split into two `std::size_t` fields and their quotient is taken
(`double(up)/double(low)`, exact over `ℚ` here); any other token is
parsed as a `double`.  `none` models the `NumberFormatError` path. -/
def parse_number (s : String) : Option ℚ :=
  match splitSlash s.toList with
  | some (up, low) =>
    match from_string_size_t (String.mk up), from_string_size_t (String.mk low) with
    | some u, some l => some ((u : ℚ) / (l : ℚ))
    | _, _ => none
  | none => from_string_double s

/-- The terminal error conditions of `main`, one constructor per distinct
diagnostic (payloads are the data interpolated into the message). -/
inductive ConvError where
  | multipleTo
  | tooManyTokens
  | substanceMismatch (fromSub toSub : String)
  | unknownUnit (name : String)
  | numberFormat (token : String)
  | missingSubstance (fromName : String) (fromType : unit_type)
      (toName : String) (toType : unit_type)
  | unknownSubstance (name : String)
  | kindMismatch (fromName : String) (fromType : unit_type)
      (toName : String) (toType : unit_type)
  deriving DecidableEq, Repr

/-- One line of program output.  `usage` is one of the six usage-example
lines; `noteUnits` / `noteDensities` are the "known units/densities"
suggestion lines, whose sorted contents are abstracted (std::sort leaves
the order of ties unspecified); `result` is the success line of line
297–298, carrying the data it interpolates (the numeric result exact over
`ℚ` rather than iostream-formatted). -/
inductive OutLine where
  | usage
  | err (e : ConvError)
  | noteUnits
  | noteDensities
  | result (quantity unitFrom object : String) (value : ℚ) (unitTo : String)
  deriving DecidableEq, Repr

/-- The five token variables of `main` (empty string = not yet set,
exactly as in the source). -/
structure Tokens where
  quantity : String := ""
  unit_from : String := ""
  object_from : String := ""
  unit_to : String := ""
  object_to : String := ""
  deriving DecidableEq, Repr

/-- One iteration of the argument-classification loop of `main`
(lines 164–191); the `Bool` is `to_found`. -/
def tokStep (st : Tokens × Bool) (arg : String) : Except ConvError (Tokens × Bool) :=
  let t := st.1
  let to_found := st.2
  let a := strToLower arg
  if a = "to" ∨ a = "in" then
    if to_found then Except.error ConvError.multipleTo
    else Except.ok (t, true)
  else if t.quantity = "" then Except.ok ({ t with quantity := a }, to_found)
  else if t.unit_from = "" then Except.ok ({ t with unit_from := a }, to_found)
  else if ¬to_found ∧ t.object_from = "" then
    Except.ok (if a ≠ "of" then { t with object_from := a } else t, to_found)
  else if to_found ∧ t.unit_to = "" then Except.ok ({ t with unit_to := a }, to_found)
  else if to_found ∧ t.object_to = "" then
    Except.ok (if a ≠ "of" then { t with object_to := a } else t, to_found)
  else Except.error ConvError.tooManyTokens

/-- The whole argument-classification loop over `argv[1..]`. -/
def tokenize (args : List String) : Except ConvError Tokens :=
  (args.foldlM tokStep ({}, false)).map (fun p => p.1)

/-- Lines 275–295 of `main`: the common tail after the optional
density rescaling — kind check, then temperature or ratio conversion. -/
def finishConvert (q : ℚ) (uf ut : unit) (nameFrom nameTo : String) :
    Except ConvError ℚ :=
  if uf.type ≠ ut.type then
    Except.error (ConvError.kindMismatch nameFrom uf.type nameTo ut.type)
  else if uf.type = unit_type.temperature then
    if uf.to_si = ut.to_si then Except.ok q
    else if uf.to_si ≠ 0 then Except.ok ((9 / 5) * q + 32)
    else Except.ok ((5 / 9) * (q - 32))
  else Except.ok (q * uf.to_si / ut.to_si)

/-- Lines 228–295 of `main`: the conversion proper.  `object` is the
resolved substance name (`""` = none, as in the source).  On a
weight/volume cross-kind pair the substance is required, its density is
looked up, and the volume-side unit is rescaled by the density and
reclassified to weight; then the common tail runs. -/
def convert (q : ℚ) (uf ut : unit) (nameFrom nameTo object : String) :
    Except ConvError ℚ :=
  if (uf.type = unit_type.weight ∧ ut.type = unit_type.volume) ∨
     (uf.type = unit_type.volume ∧ ut.type = unit_type.weight) then
    if object = "" then
      Except.error (ConvError.missingSubstance nameFrom uf.type nameTo ut.type)
    else
      match List.lookup object density_table with
      | none => Except.error (ConvError.unknownSubstance object)
      | some density_si =>
        if uf.type = unit_type.volume then
          finishConvert q ⟨uf.to_si * density_si, unit_type.weight⟩ ut nameFrom nameTo
        else if ut.type = unit_type.volume then
          finishConvert q uf ⟨ut.to_si * density_si, unit_type.weight⟩ nameFrom nameTo
        else finishConvert q uf ut nameFrom nameTo
  else finishConvert q uf ut nameFrom nameTo

/-- Lines 193–298 of `main`, after tokenization: substance-mismatch check
first, then unit resolution (source before target), then quantity
parsing, then the conversion, then the result line. -/
def runToks (t : Tokens) : Except ConvError OutLine :=
  if t.object_from ≠ "" ∧ t.object_to ≠ "" ∧ t.object_to ≠ t.object_from then
    Except.error (ConvError.substanceMismatch t.object_from t.object_to)
  else
    let object := if t.object_from = "" then t.object_to else t.object_from
    match List.lookup t.unit_from unit_table with
    | none => Except.error (ConvError.unknownUnit t.unit_from)
    | some uf =>
      match List.lookup t.unit_to unit_table with
      | none => Except.error (ConvError.unknownUnit t.unit_to)
      | some ut =>
        match parse_number t.quantity with
        | none => Except.error (ConvError.numberFormat t.quantity)
        | some q =>
          (convert q uf ut t.unit_from t.unit_to object).map
            (fun r => OutLine.result t.quantity t.unit_from object r t.unit_to)

/-- The standard-error lines printed for each terminal error: the unknown
unit/substance errors are followed by a suggestion note line, every other
error is a single line. -/
def errLines (e : ConvError) : List OutLine :=
  match e with
  | ConvError.unknownUnit _ => [OutLine.err e, OutLine.noteUnits]
  | ConvError.unknownSubstance _ => [OutLine.err e, OutLine.noteDensities]
  | _ => [OutLine.err e]

/-- The six usage-example lines of lines 153–158, printed to standard
output when fewer than four operands are given. -/
def usageLines : List OutLine := List.replicate 6 OutLine.usage

/-- The whole program: `args` is `argv` without the program name, and the
value is (exit code, standard output, standard error). -/
def runProg (args : List String) : Nat × List OutLine × List OutLine :=
  if args.length < 4 then (1, usageLines, [])
  else
    match tokenize args with
    | Except.error e => (1, [], errLines e)
    | Except.ok t =>
      match runToks t with
      | Except.error e => (1, [], errLines e)
      | Except.ok line => (0, [line], [])

/-- Variant of the inner mismatch loop where every character access is a
total `Option`-returning index (`none` as soon as an index reaches the
string's length), used to state the bounds-safety claim. -/
def tdLoopChecked (t u : List Char) (k : Nat) : Nat → Option Nat
  | 0 => some 0
  | m + 1 => do
      let prev ← tdLoopChecked t u k m
      let ct ← t.get? (m + k)
      let cu ← u.get? m
      pure (if ct ≠ cu then prev + 1 else prev)

/-- Offset loop over the checked inner loop. -/
def bestLoopChecked (t u : List Char) : Nat → Option Nat
  | 0 => some SIZE_MAX
  | k + 1 => do
      let best ← bestLoopChecked t u k
      let td ← tdLoopChecked t u k t.length
      pure (if td < best then td else best)

/-- `string_distance` over `Option`-returning string indexing: `none`
exactly when some iteration indexes a string at or past its length. -/
def string_distance_checked (t u : List Char) : Option Nat :=
  if t.length > u.length then
    (bestLoopChecked u t (t.length - u.length)).map
      (fun best => (t.length - u.length + best) % 2 ^ 64)
  else
    (bestLoopChecked t u (u.length - t.length)).map
      (fun best => (u.length - t.length + best) % 2 ^ 64)

/-- Modelled from the spec's words (4.2): the number of positions `i` in
`[0, n)` at which the longer string's character at `i + k` differs from
the shorter string's character at `i`. -/
def specMismatchCount (shorter longer : List Char) (k : Nat) : Nat :=
  ((List.range shorter.length).filter
    (fun i => longer.getD (i + k) (Char.ofNat 0) ≠ shorter.getD i (Char.ofNat 0))).length

/-- Modelled from the spec's words (4.2): for the shorter string of
length `n` and the longer of length `n + d`, the metric is `d` plus the
minimum over offsets `k ∈ [0, d)` of the per-offset mismatch count of the
longer string aligned against the shorter one (sentinel minimum for the
empty range, matching the spec's note on `d = 0`). -/
def spec_string_distance (t u : List Char) : Nat :=
  let shorter := if t.length ≤ u.length then t else u
  let longer := if t.length ≤ u.length then u else t
  let d := longer.length - shorter.length
  d + ((List.range d).map (specMismatchCount shorter longer)).foldr min SIZE_MAX

example : spec_string_distance "ab".toList "xaby".toList = 2 := by decide
example : string_distance_checked "a".toList "abc".toList = none := by decide

/-- `List.lookup` only returns bindings present in the list. -/
theorem lookup_mem {α β : Type} [BEq α] [LawfulBEq α] {k : α} {v : β} :
    ∀ {l : List (α × β)}, List.lookup k l = some v → (k, v) ∈ l := by
  intro l
  induction l with
  | nil => intro h; simp [List.lookup] at h
  | cons p es ih =>
    obtain ⟨a, b⟩ := p
    intro h
    simp only [List.lookup] at h
    by_cases hk : k == a
    · rw [hk] at h
      simp only [Option.some.injEq] at h
      subst h
      have hka := eq_of_beq hk
      subst hka
      exact List.mem_cons_self _ _
    · rw [Bool.not_eq_true] at hk
      rw [hk] at h
      exact List.mem_cons_of_mem _ (ih h)

/-- Every weight or volume unit in the table has a nonzero SI factor. -/
theorem unit_table_factors_nonzero :
    ∀ p ∈ unit_table, p.2.type ≠ unit_type.temperature → p.2.to_si ≠ 0 := by
  intro p hp
  simp only [unit_table, List.mem_cons, List.not_mem_nil, or_false] at hp
  rcases hp with rfl|rfl|rfl|rfl|rfl|rfl|rfl|rfl|rfl|rfl|rfl|rfl|rfl|rfl|rfl|rfl <;>
    intro h <;> first | exact absurd rfl h | norm_num

/-- `errLines` never produces an empty list: every terminal error prints
at least one diagnostic line. -/
theorem errLines_ne_nil (e : ConvError) : errLines e ≠ [] := by
  cases e <;> simp [errLines]

/-- Same-kind (weight/weight or volume/volume) conversion is the plain
SI-factor ratio, whatever the substance tokens were. -/
theorem convert_same_kind (q : ℚ) (u1 u2 : unit) (n1 n2 obj : String)
    (hk : u1.type = u2.type)
    (hw : u1.type = unit_type.weight ∨ u1.type = unit_type.volume) :
    convert q u1 u2 n1 n2 obj = Except.ok (q * u1.to_si / u2.to_si) := by
  have hk2 := hk.symm
  rcases hw with h | h <;>
    simp [convert, finishConvert, h, hk2.trans h]

/-- The exact-arithmetic round trip of the ratio conversion. -/
theorem ratio_roundtrip (q f1 f2 : ℚ) (h1 : f1 ≠ 0) (h2 : f2 ≠ 0) :
    q * f1 / f2 * f2 / f1 = q := by
  field_simp

/-- The empty substance name is not a key of the density table. -/
theorem density_lookup_empty : List.lookup "" density_table = none := by
  simp [density_table, List.lookup]

/-- Volume→weight conversion with a known substance: the source unit's SI
factor is multiplied by the density (and its kind reclassified to weight)
before the ratio. -/
theorem convert_volume_to_weight (q d : ℚ) (uf ut : unit) (nf nt obj : String)
    (hf : uf.type = unit_type.volume) (ht : ut.type = unit_type.weight)
    (hd : List.lookup obj density_table = some d) :
    convert q uf ut nf nt obj = Except.ok (q * (uf.to_si * d) / ut.to_si) := by
  have hobj : ¬ obj = "" := by
    intro h
    rw [h, density_lookup_empty] at hd
    exact Option.noConfusion hd
  simp [convert, finishConvert, hf, ht, hobj, hd]

/-- Weight→volume conversion with a known substance: the target unit's SI
factor is multiplied by the density (and its kind reclassified to weight)
before the ratio. -/
theorem convert_weight_to_volume (q d : ℚ) (uf ut : unit) (nf nt obj : String)
    (hf : uf.type = unit_type.weight) (ht : ut.type = unit_type.volume)
    (hd : List.lookup obj density_table = some d) :
    convert q uf ut nf nt obj = Except.ok (q * uf.to_si / (ut.to_si * d)) := by
  have hobj : ¬ obj = "" := by
    intro h
    rw [h, density_lookup_empty] at hd
    exact Option.noConfusion hd
  simp [convert, finishConvert, hf, ht, hobj, hd]

deriving instance DecidableEq for Except

/-- Tokenization of the example command line `1 tbs butter to g`. -/
theorem tokenize_example_tbs_butter :
    tokenize ["1", "tbs", "butter", "to", "g"] =
      Except.ok ⟨"1", "tbs", "butter", "g", ""⟩ := by decide

/-- `runToks` on the example tokens, reduced up to (but not through) the
rational arithmetic. -/
theorem runToks_example_step : runToks ⟨"1", "tbs", "butter", "g", ""⟩ =
    (convert (((1 : Nat) : ℚ) + ((0 : Nat) : ℚ) / (10 : ℚ) ^ (0 : Nat))
      ⟨1479 / 100000, unit_type.volume⟩ ⟨1 / 1000, unit_type.weight⟩ "tbs" "g" "butter").map
      (fun r => OutLine.result "1" "tbs" "butter" r "g") := rfl

/-- `runToks` on the example tokens of `1 tbs butter to g`. -/
theorem runToks_example_tbs_butter : runToks ⟨"1", "tbs", "butter", "g", ""⟩ =
    Except.ok (OutLine.result "1" "tbs" "butter"
      (1 * ((1479 / 100000 : ℚ) * (9586 / 10000)) / (1 / 1000)) "g") := by
  have hd : List.lookup "butter" density_table = some (9586 / 10000) := by
    simp [density_table, List.lookup]
  have hq : (((1 : Nat) : ℚ) + ((0 : Nat) : ℚ) / (10 : ℚ) ^ (0 : Nat)) = 1 := by norm_num
  have hconv := convert_volume_to_weight 1 (9586 / 10000) ⟨1479 / 100000, unit_type.volume⟩
    ⟨1 / 1000, unit_type.weight⟩ "tbs" "g" "butter" rfl rfl hd
  rw [runToks_example_step, hq, hconv]
  rfl

/-- C1: for every weight/volume cross-kind conversion with a known
substance, the volume-side unit's SI factor is multiplied by the
substance's density (its kind reclassified to weight) before the ratio
conversion; in particular `1 tbs butter to g` yields
`1 * 0.01479 * 0.9586` kilograms expressed in grams, i.e.
`1 * (0.01479 * 0.9586) / 0.001`. -/
theorem C1_cross_kind_density :
    (∀ (q d : ℚ) (uf ut : unit) (nf nt obj : String),
      uf.type = unit_type.volume → ut.type = unit_type.weight →
      List.lookup obj density_table = some d →
      convert q uf ut nf nt obj = Except.ok (q * (uf.to_si * d) / ut.to_si)) ∧
    (∀ (q d : ℚ) (uf ut : unit) (nf nt obj : String),
      uf.type = unit_type.weight → ut.type = unit_type.volume →
      List.lookup obj density_table = some d →
      convert q uf ut nf nt obj = Except.ok (q * uf.to_si / (ut.to_si * d))) ∧
    runProg ["1", "tbs", "butter", "to", "g"] =
      (0, [OutLine.result "1" "tbs" "butter"
        (1 * ((1479 / 100000 : ℚ) * (9586 / 10000)) / (1 / 1000)) "g"], []) := by
  refine ⟨?_, ?_, ?_⟩
  · intro q d uf ut nf nt obj hf ht hd
    exact convert_volume_to_weight q d uf ut nf nt obj hf ht hd
  · intro q d uf ut nf nt obj hf ht hd
    exact convert_weight_to_volume q d uf ut nf nt obj hf ht hd
  · unfold runProg
    rw [if_neg (by decide), tokenize_example_tbs_butter]
    show (match runToks ⟨"1", "tbs", "butter", "g", ""⟩ with
      | Except.error e => ((1 : Nat), ([] : List OutLine), errLines e)
      | Except.ok line => (0, [line], [])) = _
    rw [runToks_example_tbs_butter]

/-- Witness for C1: the volume→weight branch applied at
`1 tbs butter to g` with the table values. -/
theorem C1_witness :
    convert 1 ⟨1479 / 100000, unit_type.volume⟩ ⟨1 / 1000, unit_type.weight⟩
      "tbs" "g" "butter" =
    Except.ok (1 * ((1479 / 100000 : ℚ) * (9586 / 10000)) / (1 / 1000)) :=
  C1_cross_kind_density.1 1 (9586 / 10000) ⟨1479 / 100000, unit_type.volume⟩
    ⟨1 / 1000, unit_type.weight⟩ "tbs" "g" "butter" rfl rfl
    (by simp [density_table, List.lookup])

/-- C2: temperature conversion — identical sentinel factors give the
identity, sentinel 1 (Celsius) to sentinel 0 (Fahrenheit) gives
`9/5*q + 32`, and sentinel 0 to sentinel 1 gives `5/9*(q - 32)`. -/
theorem C2_temperature_conversion (q : ℚ) (uf ut : unit) (nf nt obj : String)
    (hf : uf.type = unit_type.temperature) (ht : ut.type = unit_type.temperature) :
    (uf.to_si = ut.to_si → convert q uf ut nf nt obj = Except.ok q) ∧
    (uf.to_si = 1 → ut.to_si = 0 →
      convert q uf ut nf nt obj = Except.ok ((9 / 5) * q + 32)) ∧
    (uf.to_si = 0 → ut.to_si = 1 →
      convert q uf ut nf nt obj = Except.ok ((5 / 9) * (q - 32))) := by
  refine ⟨?_, ?_, ?_⟩
  · intro he
    simp [convert, finishConvert, hf, ht, he]
  · intro h1 h0
    simp [convert, finishConvert, hf, ht, h1, h0]
  · intro h0 h1
    simp [convert, finishConvert, hf, ht, h0, h1]

/-- Witness for C2: `400 F in C` computes `5/9*(400 - 32)`. -/
theorem C2_witness :
    convert 400 ⟨0, unit_type.temperature⟩ ⟨1, unit_type.temperature⟩ "f" "c" "" =
      Except.ok ((5 / 9) * (400 - 32)) :=
  (C2_temperature_conversion 400 ⟨0, unit_type.temperature⟩ ⟨1, unit_type.temperature⟩
    "f" "c" "" rfl rfl).2.2 rfl rfl

/-- C3: for every same-kind pair of table units (both weight or both
volume) each direction computes `q * sourceFactor / targetFactor`, and
the round trip recovers the original quantity exactly over `ℚ`. -/
theorem C3_same_kind_roundtrip (n1 n2 : String) (u1 u2 : unit) (q : ℚ)
    (h1 : List.lookup n1 unit_table = some u1)
    (h2 : List.lookup n2 unit_table = some u2)
    (hk : u1.type = u2.type)
    (hw : u1.type = unit_type.weight ∨ u1.type = unit_type.volume) :
    convert q u1 u2 n1 n2 "" = Except.ok (q * u1.to_si / u2.to_si) ∧
    convert (q * u1.to_si / u2.to_si) u2 u1 n2 n1 "" = Except.ok q := by
  have hnt1 : u1.type ≠ unit_type.temperature := by
    rcases hw with h | h <;> rw [h] <;> exact fun hc => unit_type.noConfusion hc
  have hnt2 : u2.type ≠ unit_type.temperature := by rw [← hk]; exact hnt1
  have hnz1 : u1.to_si ≠ 0 := unit_table_factors_nonzero (n1, u1) (lookup_mem h1) hnt1
  have hnz2 : u2.to_si ≠ 0 := unit_table_factors_nonzero (n2, u2) (lookup_mem h2) hnt2
  constructor
  · exact convert_same_kind q u1 u2 n1 n2 "" hk hw
  · rw [convert_same_kind (q * u1.to_si / u2.to_si) u2 u1 n2 n1 "" hk.symm
      (by rw [← hk]; exact hw)]
    rw [ratio_roundtrip q u1.to_si u2.to_si hnz1 hnz2]

/-- Witness for C3: `kg → g → kg` at quantity 10. -/
theorem C3_witness :
    convert 10 ⟨1, unit_type.weight⟩ ⟨1 / 1000, unit_type.weight⟩ "kg" "g" "" =
      Except.ok (10 * (1 : ℚ) / (1 / 1000)) ∧
    convert (10 * (1 : ℚ) / (1 / 1000)) ⟨1 / 1000, unit_type.weight⟩
      ⟨1, unit_type.weight⟩ "g" "kg" "" = Except.ok 10 :=
  C3_same_kind_roundtrip "kg" "g" ⟨1, unit_type.weight⟩ ⟨1 / 1000, unit_type.weight⟩ 10
    (by simp [unit_table, List.lookup]) (by simp [unit_table, List.lookup]) rfl (Or.inl rfl)

/-- C4: when both substances are given and differ the program fails with
the substance-mismatch error and exit status 1 producing nothing on
standard output, and the check precedes unit resolution and quantity
parsing (the units and the quantity are arbitrary, even invalid). -/
theorem C4_substance_mismatch_first :
    (∀ t : Tokens, t.object_from ≠ "" → t.object_to ≠ "" → t.object_to ≠ t.object_from →
      runToks t = Except.error (ConvError.substanceMismatch t.object_from t.object_to)) ∧
    (∀ (args : List String) (t : Tokens), ¬ args.length < 4 →
      tokenize args = Except.ok t →
      t.object_from ≠ "" → t.object_to ≠ "" → t.object_to ≠ t.object_from →
      runProg args =
        (1, [], [OutLine.err (ConvError.substanceMismatch t.object_from t.object_to)])) ∧
    runProg ["1", "tbs", "butter", "to", "g", "of", "sugar"] =
      (1, [], [OutLine.err (ConvError.substanceMismatch "butter" "sugar")]) := by
  have key : ∀ t : Tokens,
      t.object_from ≠ "" → t.object_to ≠ "" → t.object_to ≠ t.object_from →
      runToks t = Except.error (ConvError.substanceMismatch t.object_from t.object_to) := by
    intro t ha hb hc
    unfold runToks
    rw [if_pos ⟨ha, hb, hc⟩]
  refine ⟨key, ?_, by decide⟩
  intro args t hlen htok ha hb hc
  unfold runProg
  rw [if_neg hlen, htok]
  show (match runToks t with
    | Except.error e => ((1 : Nat), ([] : List OutLine), errLines e)
    | Except.ok line => (0, [line], [])) = _
  rw [key t ha hb hc]
  rfl

/-- Witness for C4: the mismatch error fires even with unknown units and
an unparseable quantity, showing the check comes first. -/
theorem C4_witness :
    runToks ⟨"x", "zzz", "a", "qqq", "b"⟩ =
      Except.error (ConvError.substanceMismatch "a" "b") :=
  C4_substance_mismatch_first.1 ⟨"x", "zzz", "a", "qqq", "b"⟩
    (by decide) (by decide) (by decide)

/-- C5: the quantity token `-3/4` is NOT rejected — `istringstream`
extraction into `std::size_t` accepts a minus sign and wraps the value
modulo `2^64` (`strtoull` semantics), so the parse succeeds with
numerator `2^64 - 3` instead of failing with the number-format error. -/
theorem C5_negative_fraction_accepted :
    parse_number "-3/4" = some (((2 ^ 64 - 3 : Nat) : ℚ) / ((4 : Nat) : ℚ)) ∧
    from_string_size_t "-3" = some (2 ^ 64 - 3) :=
  ⟨rfl, by decide⟩

/-- C6: `string_distance` does NOT compute the spec's metric.  On the
pair `"ab"`/`"xaby"` the spec's alignment of the longer string against
the shorter gives `2 + min(2, 0) = 2`, but the code compares
`t[i+k] != u[i]` with `t` the SHORTER string (reading its terminator at
offset 1) and returns `2 + min(2, 2) = 4`. -/
theorem C6_shifted_compare_swapped :
    string_distance "ab".toList "xaby".toList = some 4 ∧
    spec_string_distance "ab".toList "xaby".toList = 2 ∧ (4 : Nat) ≠ 2 := by decide

/-- C7: on equal-length strings the offset loop of `string_distance`
never executes, `best_d` keeps its sentinel `std::size_t(-1)` value, and
the returned distance is that maximal sentinel — no return value of
`string_distance` ever exceeds it. -/
theorem C7_equal_length_sentinel (t u : List Char) (h : t.length = u.length) :
    string_distance t u = some SIZE_MAX ∧
    ∀ (a b : List Char) (v : Nat), string_distance a b = some v → v ≤ SIZE_MAX := by
  constructor
  · have hng : ¬ t.length > u.length := by omega
    have hd : u.length - t.length = 0 := by omega
    unfold string_distance
    rw [if_neg hng]
    unfold string_distance_core
    rw [hd]
    show some ((0 + SIZE_MAX) % 2 ^ 64) = some SIZE_MAX
    norm_num [SIZE_MAX]
  · intro a b v hv
    have key : ∀ x y : List Char, string_distance_core x y = some v → v ≤ SIZE_MAX := by
      intro x y hxy
      unfold string_distance_core at hxy
      cases hb : bestLoop x y (y.length - x.length) with
      | none =>
        rw [hb] at hxy
        exact Option.noConfusion (show (none : Option Nat) = some v from hxy)
      | some best =>
        rw [hb] at hxy
        have hv2 : (y.length - x.length + best) % 2 ^ 64 = v :=
          Option.some.inj
            (show some ((y.length - x.length + best) % 2 ^ 64) = some v from hxy)
        have hlt : (y.length - x.length + best) % 2 ^ 64 < 2 ^ 64 :=
          Nat.mod_lt _ (by norm_num)
        rw [hv2] at hlt
        have h64 : (2 : Nat) ^ 64 = 18446744073709551616 := by norm_num
        unfold SIZE_MAX
        rw [h64] at hlt ⊢
        omega
    unfold string_distance at hv
    by_cases hab : a.length > b.length
    · rw [if_pos hab] at hv
      exact key b a hv
    · rw [if_neg hab] at hv
      exact key a b hv

/-- Witness for C7: the distinct equal-length unit names `kg` and `oz`
are at the maximal sentinel distance. -/
theorem C7_witness :
    string_distance "kg".toList "oz".toList = some SIZE_MAX :=
  (C7_equal_length_sentinel "kg".toList "oz".toList rfl).1

/-- Case analysis of the whole program: the usage block (standard output,
exit 1), a diagnostic (standard error, exit 1), or one result line
(standard output, exit 0). -/
theorem runProg_cases (args : List String) :
    (args.length < 4 ∧ runProg args = (1, usageLines, [])) ∨
    (∃ e, runProg args = (1, [], errLines e)) ∨
    (∃ line, runProg args = (0, [line], [])) := by
  by_cases hlen : args.length < 4
  · exact Or.inl ⟨hlen, by unfold runProg; rw [if_pos hlen]⟩
  · right
    cases htok : tokenize args with
    | error e =>
      exact Or.inl ⟨e, by unfold runProg; rw [if_neg hlen, htok]⟩
    | ok t =>
      cases hrt : runToks t with
      | error e =>
        refine Or.inl ⟨e, ?_⟩
        unfold runProg
        rw [if_neg hlen, htok]
        show (match runToks t with
          | Except.error e => ((1 : Nat), ([] : List OutLine), errLines e)
          | Except.ok line => (0, [line], [])) = _
        rw [hrt]
      | ok line =>
        refine Or.inr ⟨line, ?_⟩
        unfold runProg
        rw [if_neg hlen, htok]
        show (match runToks t with
          | Except.error e => ((1 : Nat), ([] : List OutLine), errLines e)
          | Except.ok line => (0, [line], [])) = _
        rw [hrt]

/-- C8 as amended: every failing run exits with status 1 and puts no
result line on standard output; every failing run other than the
too-few-arguments usage error prints its diagnostics to standard error
and nothing to standard output; the usage error prints its text to
STANDARD OUTPUT (not standard error, contrary to the original claim). -/
theorem C8_failing_streams :
    (∀ args : List String, (runProg args).1 ≠ 0 →
      ∀ l ∈ (runProg args).2.1, l = OutLine.usage) ∧
    (∀ args : List String, args.length < 4 → runProg args = (1, usageLines, [])) ∧
    (∀ args : List String, ¬ args.length < 4 → (runProg args).1 = 1 →
      (runProg args).2.1 = [] ∧ (runProg args).2.2 ≠ []) := by
  refine ⟨?_, ?_, ?_⟩
  · intro args hne l hl
    rcases runProg_cases args with ⟨_, h⟩ | ⟨e, h⟩ | ⟨line, h⟩
    · rw [h] at hl
      simp [usageLines, List.mem_replicate] at hl
      exact hl
    · rw [h] at hl
      simp at hl
    · rw [h] at hne
      simp at hne
  · intro args h
    unfold runProg
    rw [if_pos h]
  · intro args hlen h1
    rcases runProg_cases args with ⟨hl, h⟩ | ⟨e, h⟩ | ⟨line, h⟩
    · exact absurd hl hlen
    · rw [h]
      exact ⟨rfl, errLines_ne_nil e⟩
    · rw [h] at h1
      simp at h1

/-- Witness for C8 (amended): the empty command line takes the usage
path. -/
theorem C8_witness : runProg [] = (1, usageLines, []) :=
  C8_failing_streams.2.1 [] (by decide)

/-- Counterexample to C8 as stated: on too few arguments the program
exits 1 but its diagnostic (the usage text) goes to STANDARD OUTPUT and
standard error stays empty. -/
theorem C8_counterexample :
    (runProg []).1 = 1 ∧ (runProg []).2.2 = [] ∧ (runProg []).2.1 ≠ [] := by decide

/-- C9: `string_distance` is NOT bounds-safe.  Over `Option`-returning
indexing the out-of-bounds branch IS reached: on `"a"`/`"abc"` the inner
loop indexes the shorter string at `i + k = 1 ≥ 1`; on `"a"`/`"abcd"`
even the C++ model (terminator readable, past-the-end undefined) hits
undefined behaviour at index `2 > 1`. -/
theorem C9_out_of_bounds_access :
    string_distance_checked "a".toList "abc".toList = none ∧
    string_distance "a".toList "abcd".toList = none := by decide

/-- C10: the duplicated `"baking-powder"` key resolves to the FIRST
listed density 1.1548, and no lookup whatsoever can produce the shadowed
0.7208 entry. -/
theorem C10_baking_powder_first_wins :
    List.lookup "baking-powder" density_table = some (11548 / 10000) ∧
    ∀ (s : String) (v : ℚ), List.lookup s density_table = some v →
      v ≠ 7208 / 10000 := by
  constructor
  · simp [density_table, List.lookup]
  · intro s v h
    simp only [density_table, List.lookup] at h
    repeat' split at h
    all_goals first
      | (injection h with h; subst h; norm_num; done)
      | simp_all

/-- Witness for C10: the lookup at `baking-powder` itself returns a
density different from the shadowed entry. -/
theorem C10_witness : ((11548 : ℚ) / 10000) ≠ 7208 / 10000 :=
  C10_baking_powder_first_wins.2 "baking-powder" (11548 / 10000)
    (by simp [density_table, List.lookup])
